import Mathlib

/-!
Verification of the w1-datalogger rollup engine against its specification.

This file shallowly embeds the parts of `src/w1data` that the checked
properties talk about:

* `rollup.py` — `RollupMonthly` (lazy monthly rollup file: row dict,
  metadata series, dirty flag, lazy content cache) and
  `RollupMonthlyCollection` (partition dictionary plus the
  most-recent / known-at-init heuristic state used by `save_quick`).
* `observations.py` — `transform1` (legacy record normalization),
  `get_fallback_time` (timestamp fallback chain) and the per-directory
  walk `generate_dir`.
* `w1datapoint_linux_w1therm.py` — the thermal-probe value decoder.

Modelling conventions, chosen once and used throughout:

* Python `datetime` values are modelled as `Nat` instants; `datetime`
  comparison is `Nat` comparison and `datetime_isoformat` is modelled as
  the identity on the instant (ISO rendering of UTC datetimes is
  injective and order-preserving, so nothing the claims mention is lost).
* Metadata snapshots are opaque: Python compares them with `==` and
  stores them unchanged, so they are modelled as `Nat` identifiers.
* Python `dict` is an insertion-ordered association list; assignment
  replaces the value at an existing key in place, otherwise appends.
* Raising an exception is `Except.error`; the error tag records the
  Python exception class where the distinction matters.
* JSON values (`J` below) cover the shapes the claims exercise: strings,
  integers, arrays, objects.  JSON `null` does not occur in the device
  blobs the walk consumes and is omitted.
* Python's `sorted` / `list.sort` (a stable sort by the `≤` of the list
  elements) is modelled by `List.insertionSort`, which is also stable,
  with the corresponding lexicographic order on pairs.
-/

/-! ### Orders used by the Python sorts -/

/-- Lexicographic order on `(onset, metadata-id)` pairs: Python's tuple
order used by `self.metadata_series.sort()` in `RollupMonthly.save_metadata`. -/
def metaLe (a b : Nat × Nat) : Prop :=
  a.1 < b.1 ∨ (a.1 = b.1 ∧ a.2 ≤ b.2)

instance : DecidableRel metaLe := fun a b => by
  unfold metaLe; infer_instance

instance : IsTotal (Nat × Nat) metaLe := by
  constructor; intro a b; unfold metaLe; omega

instance : IsTrans (Nat × Nat) metaLe := by
  constructor; intro a b c; unfold metaLe; omega

/-- Lexicographic order on serialized rows `[isoformat time, value]`:
Python's list order used by `sorted` over the row pairs in
`RollupMonthly.rewrite` (fixed-width ISO strings sort like their instants). -/
def rowLe (a b : Nat × ℚ) : Prop :=
  a.1 < b.1 ∨ (a.1 = b.1 ∧ a.2 ≤ b.2)

instance : DecidableRel rowLe := fun a b => by
  unfold rowLe; infer_instance

instance : IsTotal (Nat × ℚ) rowLe := by
  constructor; intro a b
  unfold rowLe
  rcases Nat.lt_trichotomy a.1 b.1 with h | h | h
  · exact Or.inl (Or.inl h)
  · rcases le_total a.2 b.2 with h2 | h2
    · exact Or.inl (Or.inr ⟨h, h2⟩)
    · exact Or.inr (Or.inr ⟨h.symm, h2⟩)
  · exact Or.inr (Or.inl h)

instance : IsTrans (Nat × ℚ) rowLe := by
  constructor; intro a b c hab hbc
  unfold rowLe at *
  rcases hab with h1 | ⟨e1, l1⟩ <;> rcases hbc with h2 | ⟨e2, l2⟩
  · exact Or.inl (Nat.lt_trans h1 h2)
  · exact Or.inl (e2 ▸ h1)
  · exact Or.inl (e1 ▸ h2)
  · exact Or.inr ⟨e1.trans e2, le_trans l1 l2⟩

/-- Ascending-by-onset, the ordering property §3 of the spec asserts for
`metadata_series` (first components non-decreasing). -/
def SortedOnset (l : List (Nat × Nat)) : Prop :=
  l.Pairwise (fun a b => a.1 ≤ b.1)

instance : DecidablePred SortedOnset := fun l => by
  unfold SortedOnset; infer_instance

theorem sorted_metaLe_onset {l : List (Nat × Nat)} (h : l.Sorted metaLe) :
    SortedOnset l := by
  refine h.imp ?_
  intro a b hab
  rcases hab with h | ⟨h, _⟩
  · exact Nat.le_of_lt h
  · exact Nat.le_of_eq h

/-! ### RollupMonthly (rollup.py)

The row/content dictionary.  `read_lazy` stores whatever `json.load`
returns (for an existing file: the whole `{"metadata": ..., "rows": ...}`
document with string keys), while `add_row` stores decoded datapoints
under `(row_time, row_uuid)` tuple keys; both live in the same `dict`,
so keys and values are tagged unions. -/

/-- Decoded datapoint object as stored by `add_row`; `.value` is the
decoded reading (`W1Datapoint_Linux_w1therm.value`). -/
structure Datapoint where
  value : ℚ
  deriving DecidableEq

/-- Keys of the `_content` dict: JSON string keys from `json.load`, or
`(row_time, row_uuid)` tuples from `add_row`. -/
inductive DKey where
  | sKey (s : String)
  | rKey (t : Nat) (u : Nat)
  deriving DecidableEq

/-- Values of the `_content` dict: the two sections of a loaded rollup
document, or a datapoint stored by `add_row`. -/
inductive DVal where
  | jmeta (l : List (Nat × Nat))
  | jrows (l : List (Nat × ℚ))
  | dpVal (d : Datapoint)
  deriving DecidableEq

/-- Python dict assignment `d[k] = v`: replace in place at an existing
key, else append (insertion order preserved). -/
def dictSet {K V : Type} [BEq K] : List (K × V) → K → V → List (K × V)
  | [], k, v => [(k, v)]
  | (k', v') :: rest, k, v =>
    if k' == k then (k, v) :: rest else (k', v') :: dictSet rest k v

/-- Python dict lookup that returns `none` for a missing key. -/
def dictGet {K V : Type} [BEq K] (l : List (K × V)) (k : K) : Option V :=
  (l.find? (fun kv => kv.1 == k)).map (·.2)

/-- The serialized rollup document `{"metadata": [...], "rows": [...]}`
written by `RollupMonthly.rewrite` (rows as `(instant, value)`, metadata
as `(onset, snapshot)`; JSON rendering of these lists is injective, so
equality of `Doc`s is byte-identity of the two sections). -/
structure Doc where
  meta : List (Nat × Nat)
  rows : List (Nat × ℚ)
  deriving DecidableEq

/-- The rollup directory: absolute path → JSON document (only the JSON
artifacts; the companion GNUPlot `.data` export carries no engine state
and its write failures are ignored by the source). -/
def DiskMap : Type := String → Option Doc

/-- Model of `os.path.join` for the relative components the source joins. -/
def pathJoin (a b : String) : String := a ++ "/" ++ b

/-- Zero-pad a numeral to `w` digits, as Python's format specs 04 / 02 do. -/
def padNum (w : Nat) (n : Nat) : String :=
  let s := toString n
  String.mk (List.replicate (w - s.length) '0') ++ s

/-- `RollupMonthly.filename_format`: year-month-measurement.json. -/
def rmFilename (year month : Nat) (measurement : String) : String :=
  padNum 4 year ++ "-" ++ padNum 2 month ++ "-" ++ measurement ++ ".json"

/-- In-memory `RollupMonthly` state (`__init__` fields; `dt_start`/`dt_end`
are kept as the (year, month) the instance was built from). -/
structure RollupMonthly where
  rollup_location : String
  year : Nat
  month : Nat
  measurement_name : String
  metadata_series : List (Nat × Nat)
  changed : Bool
  content : Option (List (DKey × DVal))
  deriving DecidableEq

/-- `RollupMonthly.__init__(rollup_location, dt_start, measurement_name)`. -/
def RollupMonthly.init (loc : String) (year month : Nat) (meas : String) :
    RollupMonthly :=
  { rollup_location := loc
    year := year
    month := month
    measurement_name := meas
    metadata_series := []
    changed := false
    content := none }

def RollupMonthly.filename (rm : RollupMonthly) : String :=
  rmFilename rm.year rm.month rm.measurement_name

/-- The path `read_lazy` opens: `os.path.join(self.rollup_location,
self.filename)` — note: no `measurement_name` component. -/
def RollupMonthly.readPath (rm : RollupMonthly) : String :=
  pathJoin rm.rollup_location rm.filename

/-- The path `rewrite` writes: `os.path.join(self.rollup_location,
self.measurement_name, self.filename)`. -/
def RollupMonthly.writePath (rm : RollupMonthly) : String :=
  pathJoin (pathJoin rm.rollup_location rm.measurement_name) rm.filename

/-- `RollupMonthly.read_lazy`: populate `_content` on first use; a missing
file (`IOError` on `open`) yields the empty dict `{}`; an existing file
yields the parsed document (its two keys, in file order). -/
def RollupMonthly.read_lazy (rm : RollupMonthly) (dm : DiskMap) :
    RollupMonthly :=
  match rm.content with
  | some _ => rm
  | none =>
    match dm rm.readPath with
    | some doc =>
      { rm with content := some [(DKey.sKey "metadata", DVal.jmeta doc.meta),
                                 (DKey.sKey "rows", DVal.jrows doc.rows)] }
    | none => { rm with content := some [] }

/-- `RollupMonthly.save_metadata` scan: find the first entry whose
metadata equals `m`; keep the minimum of its onset and `dt` (reassigning
in place, without re-sorting); `none` when no entry matches. -/
def smUpdate : List (Nat × Nat) → Nat → Nat → Option (List (Nat × Nat))
  | [], _, _ => none
  | (e, m') :: rest, dt, m =>
    if m' = m then
      some (if dt < e then (dt, m) :: rest else (e, m') :: rest)
    else
      (smUpdate rest dt m).map ((e, m') :: ·)

/-- `RollupMonthly.save_metadata`: on a match, possibly lower that entry's
onset and return; otherwise append `(dt, m)` and re-sort the whole list. -/
def save_metadata (series : List (Nat × Nat)) (dt m : Nat) :
    List (Nat × Nat) :=
  match smUpdate series dt m with
  | some series' => series'
  | none => List.insertionSort metaLe (series ++ [(dt, m)])

/-- `RollupMonthly.add_row(row_time, row_uuid, row_value, metadata)`:
mark dirty, lazily load content, merge the metadata snapshot at the row
time, store the value under the `(row_time, row_uuid)` key. -/
def RollupMonthly.add_row (rm : RollupMonthly) (t u : Nat) (v : Datapoint)
    (m : Nat) (dm : DiskMap) : RollupMonthly :=
  let rm := rm.read_lazy dm
  { rm with
    changed := true
    metadata_series := save_metadata rm.metadata_series t m
    content := some (dictSet (rm.content.getD []) (DKey.rKey t u) (DVal.dpVal v)) }

/-- The row serialization in `rewrite`: `[datetime_isoformat(key[0]),
value.value]` per entry.  A string key (loaded document section) makes
`datetime_isoformat` call `.replace(tzinfo=...)` on a `str` and
`.value` on a `list` — a `TypeError`/`AttributeError`, modelled as `none`. -/
def serializeEntry : DKey × DVal → Option (Nat × ℚ)
  | (DKey.rKey t _, DVal.dpVal d) => some (t, d.value)
  | _ => none

def serializeContent (c : List (DKey × DVal)) : Option (List (Nat × ℚ)) :=
  c.mapM serializeEntry

def updateMap (dm : DiskMap) (p : String) (doc : Doc) : DiskMap :=
  fun q => if q = p then some doc else dm q

/-- `RollupMonthly.rewrite`: when content is loaded and the instance is
dirty, serialize rows and metadata (each sorted ascending) and write the
document; an exception while building the row list propagates before any
file is touched.  (The companion plot file is outside the modelled state;
its failures are logged and ignored.) -/
def RollupMonthly.rewrite (rm : RollupMonthly) (dm : DiskMap) :
    Except Unit DiskMap :=
  match rm.content with
  | none => Except.ok dm
  | some c =>
    if rm.changed then
      match serializeContent c with
      | some rows =>
        Except.ok (updateMap dm rm.writePath
          { meta := List.insertionSort metaLe rm.metadata_series
            rows := List.insertionSort rowLe rows })
      | none => Except.error ()
    else Except.ok dm

/-- `RollupMonthly.flush`: rewrite only when dirty. -/
def RollupMonthly.flush (rm : RollupMonthly) (dm : DiskMap) :
    Except Unit DiskMap :=
  if rm.changed then rm.rewrite dm else Except.ok dm

/-- Entries of a metadata series carrying snapshot `m` (used to state
"exactly one entry for that snapshot"). -/
def occs (m : Nat) (l : List (Nat × Nat)) : List (Nat × Nat) :=
  l.filter (fun e => e.2 = m)

/-- Entries of a content dict at row key `k` (used to state "exactly one
row at that key"). -/
def rowsAt (c : List (DKey × DVal)) (k : DKey) : List (DKey × DVal) :=
  c.filter (fun kv => kv.1 = k)

/-- Well-formed content: when populated, its keys are distinct (the
Python `dict` invariant). -/
def RollupMonthly.WF (rm : RollupMonthly) : Prop :=
  ∀ c, rm.content = some c → (c.map (·.1)).Nodup

/-! ### RollupMonthlyCollection (rollup.py)

`__init__` keys the collection by `(dtb.utctimetuple(), measurement)`
(a `time.struct_time`, i.e. a 9-tuple of ints, paired with a string),
while `save_quick` routes by `observation.year_month_measurement()`, a
`(year, month, measurement)` triple.  Python compares such values
structurally, so both key shapes are embedded into one type of Python
values and compared with Python's `==`. -/

/-- Python values appearing as collection keys: ints, strings and tuples
(`time.struct_time` compares as its 9-tuple of ints). -/
inductive PyVal where
  | int (n : Int)
  | str (s : String)
  | tuple (l : List PyVal)

/-- Python `==` on these values: structural; tuples of different lengths
or of different classes are simply unequal. -/
def PyVal.beq : PyVal → PyVal → Bool
  | .int a, .int b => a == b
  | .str a, .str b => a == b
  | .tuple a, .tuple b => beqList a b
  | _, _ => false
where beqList : List PyVal → List PyVal → Bool
  | [], [] => true
  | a :: as, b :: bs => PyVal.beq a b && beqList as bs
  | _, _ => false

instance : BEq PyVal := ⟨PyVal.beq⟩

/-- Python `<`-style comparison on these values, as `sorted` uses on the
init keys.  Comparing an int or a string with a tuple raises `TypeError`
in Python; all keys built by `__init__` share one shape, so that branch
is unreachable there and its result here is arbitrary. -/
def PyVal.cmp : PyVal → PyVal → Ordering
  | .int a, .int b => compare a b
  | .str a, .str b => compare a b
  | .tuple a, .tuple b => cmpList a b
  | _, _ => Ordering.lt
where cmpList : List PyVal → List PyVal → Ordering
  | [], [] => Ordering.eq
  | [], _ :: _ => Ordering.lt
  | _ :: _, [] => Ordering.gt
  | a :: as, b :: bs =>
    match PyVal.cmp a b with
    | Ordering.eq => cmpList as bs
    | o => o

def pyLe (a b : PyVal) : Bool :=
  match PyVal.cmp a b with
  | Ordering.gt => false
  | _ => true

def pyLeP (a b : PyVal) : Prop := pyLe a b = true

instance : DecidableRel pyLeP := fun a b => by
  unfold pyLeP; infer_instance

/-- Gregorian leap year. -/
def isLeap (y : Nat) : Bool :=
  (y % 4 == 0 && y % 100 != 0) || y % 400 == 0

def monthDays (leap : Bool) : List Nat :=
  [31, if leap then 29 else 28, 31, 30, 31, 30, 31, 31, 30, 31, 30, 31]

/-- Days in months strictly before `m` of year `y`. -/
def daysBeforeMonth (y m : Nat) : Nat :=
  ((monthDays (isLeap y)).take (m - 1)).sum

/-- Days from 1970-01-01 to the first of month `m` of year `y` (epoch day
number of that first-of-month). -/
def daysFromEpoch (y m : Nat) : Nat :=
  (List.range (y - 1970)).foldl
    (fun acc i => acc + (if isLeap (1970 + i) then 366 else 365)) 0
  + daysBeforeMonth y m

/-- `datetime(year, month, 1).utctimetuple()`: the `time.struct_time`
9-tuple (year, month, day=1, 0, 0, 0, weekday, yearday, tm_isdst=0),
as Python comparison sees it. -/
def utctimetuple (y m : Nat) : PyVal :=
  PyVal.tuple [PyVal.int y, PyVal.int m, PyVal.int 1, PyVal.int 0,
    PyVal.int 0, PyVal.int 0, PyVal.int ((daysFromEpoch y m + 3) % 7),
    PyVal.int (daysBeforeMonth y m + 1), PyVal.int 0]

/-- The key `__init__` stores for a scanned rollup file:
`(dtb.utctimetuple(), measurement_entry.name)`. -/
def initKey (y m : Nat) (meas : String) : PyVal :=
  PyVal.tuple [utctimetuple y m, PyVal.str meas]

/-- The key `save_quick` routes by: `observation.year_month_measurement()`
= `(year, month, measurement)`. -/
def ymmKey (y m : Nat) (meas : String) : PyVal :=
  PyVal.tuple [PyVal.int y, PyVal.int m, PyVal.str meas]

/-- An observation as `save_quick`/`add_observation` consume it.  The
measurement name is resolved in the source through
`metadata['collector']['sensors'][sensor_key]['name']`
(`measurement_for_skey`); the routing claims treat the resolved name, so
it is carried as a field, alongside the opaque metadata snapshot id. -/
structure PyObservation where
  year : Nat
  month : Nat
  time : Nat
  uuid : Nat
  datapoint : Datapoint
  metadata : Nat
  measurement : String

def PyObservation.ymm (o : PyObservation) : PyVal :=
  ymmKey o.year o.month o.measurement

/-- `RollupMonthlyCollection` state after `__init__`. -/
structure RMC where
  location : String
  collection : List (PyVal × RollupMonthly)
  most_recent_ymm_init : Option PyVal
  all_ymms_init : List PyVal

/-- `RollupMonthlyCollection.__init__` over a rollup tree whose scan
found the partitions `parts` (year, month, measurement-directory), in
scan order: build a placeholder `RollupMonthly` per match under the
`(utctimetuple, measurement)` key, record the greatest key and the key
set.  (Non-matching directory entries are skipped by the scan and do not
reach the collection; the filesystem walk itself is abstracted to the
list of matches.) -/
def RMC.init (loc : String) (parts : List (Nat × Nat × String)) : RMC :=
  let coll := parts.foldl
    (fun acc p =>
      dictSet acc (initKey p.1 p.2.1 p.2.2)
        (RollupMonthly.init loc p.1 p.2.1 p.2.2))
    []
  { location := loc
    collection := coll
    most_recent_ymm_init :=
      (List.insertionSort pyLeP (coll.map (·.1))).getLast?
    all_ymms_init := coll.map (·.1) }

/-- `RollupMonthlyCollection.add_observation(observation, ymm)`: fetch or
lazily create the rollup for `ymm` and delegate to `add_row`.  The
creation branch reads `ymm[0]`, `ymm[1]`, `ymm[2]`; `save_quick` always
passes a `(year, month, measurement)` triple, and any other shape would
raise a `TypeError` in the `datetime` constructor (dead branch below). -/
def RMC.add_observation (rmc : RMC) (o : PyObservation) (ymm : PyVal)
    (dm : DiskMap) : RMC :=
  match dictGet rmc.collection ymm with
  | some c =>
    { rmc with
      collection :=
        dictSet rmc.collection ymm (c.add_row o.time o.uuid o.datapoint o.metadata dm) }
  | none =>
    match ymm with
    | PyVal.tuple [PyVal.int (Int.ofNat y), PyVal.int (Int.ofNat m), PyVal.str meas] =>
      let c := RollupMonthly.init rmc.location y m meas
      { rmc with
        collection :=
          dictSet rmc.collection ymm (c.add_row o.time o.uuid o.datapoint o.metadata dm) }
    | _ => rmc

/-- `RollupMonthlyCollection.save_quick(observation)`: merge when the
observation's `(year, month, measurement)` equals the most-recent init
key or is absent from the init key set; otherwise skip. -/
def RMC.save_quick (rmc : RMC) (o : PyObservation) (dm : DiskMap) : RMC :=
  let ymm := o.ymm
  if (match rmc.most_recent_ymm_init with
      | some k => ymm == k
      | none => false) then
    rmc.add_observation o ymm dm
  else
    if !(rmc.all_ymms_init.any (fun k => ymm == k)) then
      rmc.add_observation o ymm dm
    else
      rmc

/-! ### Observations (observations.py)

JSON values as `json.load` produces them for the blobs the walk
consumes, and the per-directory walk `generate_dir`. -/

/-- JSON value (device blobs hold strings, numbers, arrays, objects). -/
inductive J where
  | s (v : String)
  | n (v : Int)
  | arr (l : List J)
  | obj (l : List (String × J))

/-- Python exception classes distinguished by the walk's behavior. -/
inductive PyErr where
  | keyError
  | typeError
  | runtimeError
  deriving DecidableEq

/-- Lookup in a JSON object's field list (Python dict indexing that
reports a missing key as `none`). -/
def jLookup (l : List (String × J)) (k : String) : Option J :=
  (l.find? (fun kv => kv.1 == k)).map (·.2)

/-- Python `obj[k]` on a parsed JSON value: `KeyError` for a missing key,
`TypeError` when `obj` is not an object (subscripting a non-dict). -/
def jIndex (v : J) (k : String) : Except PyErr J :=
  match v with
  | J.obj l =>
    match jLookup l k with
    | some w => Except.ok w
    | none => Except.error PyErr.keyError
  | _ => Except.error PyErr.typeError

/-- Python `del obj[k]` for a key known to be present: drop the entry. -/
def jDel (l : List (String × J)) (k : String) : List (String × J) :=
  match l with
  | [] => []
  | (k', v') :: rest => if k' == k then rest else (k', v') :: jDel rest k

/-- `Observations.transform1(obj)`: find the first top-level key starting
with "28-"; rewrite it into a canonical one-element `datapoints` list
(reading `isotime` and `value` out of its object) and delete it.  The
field reads raise (`KeyError`/`TypeError`) when the legacy value lacks
them. -/
def transform1 (obj : List (String × J)) : Except PyErr (List (String × J)) :=
  match obj.find? (fun kv => kv.1.take 3 == "28-") with
  | none => Except.ok obj
  | some (k, vk) => do
    let iso ← jIndex vk "isotime"
    let v ← jIndex vk "value"
    Except.ok (jDel
      (dictSet obj "datapoints"
        (J.arr [J.obj [("isotime", iso), ("key", J.s k), ("value", v)]]))
      k)

/-- `Observations.get_fallback_time(obj)`: `scan_end`, else
`recording_isotime`, else `scan_start`, else `RuntimeError`. -/
def get_fallback_time (obj : List (String × J)) : Except PyErr J :=
  match jLookup obj "scan_end" with
  | some fb => Except.ok fb
  | none =>
    match jLookup obj "recording_isotime" with
    | some fb => Except.ok fb
    | none =>
      match jLookup obj "scan_start" with
      | some fb => Except.ok fb
      | none => Except.error PyErr.runtimeError

/-- The per-datapoint timestamp selection in `generate_dir`: the
datapoint's own `isotime` when present, else the blob-level fallback. -/
def dpTime (blob p : List (String × J)) : Except PyErr J :=
  match jLookup p "isotime" with
  | some t => Except.ok t
  | none => get_fallback_time blob

/-- The arguments `generate_dir` hands to the `Observation` constructor
for one datapoint.  Constructing the `Observation` itself (ISO parsing,
decoder dispatch) happens downstream of the walk and is not part of the
walk-level claims. -/
structure RawObs where
  isotime : J
  key : J
  value : J
  uuid : J
  metadata : Nat

/-- One datapoint of a blob: timestamp selection, uniquifier (a fresh
`uuid.uuid4()` is synthesized when `recording_event` is absent; its
random value is abstracted to a marker string), then the mandatory
`key` and `value` reads. -/
def dpObs (meta : Nat) (blob : List (String × J)) (p : J) :
    Except PyErr RawObs :=
  match p with
  | J.obj pf => do
    let iso ← dpTime blob pf
    let u := match jLookup pf "recording_event" with
      | some u => u
      | none => J.s "uuid4"
    let k ← jIndex p "key"
    let v ← jIndex p "value"
    Except.ok { isotime := iso, key := k, value := v, uuid := u, metadata := meta }
  | _ => Except.error PyErr.typeError

/-- Processing of one blob inside `generate_dir`'s file loop: a blob with
an `uptime` field is logger health info, skipped without error; else
take `datapoints`, normalizing through `transform1` when absent — and
the repeated `blob['datapoints']` lookup after `transform1` raises
`KeyError` when normalization found nothing to rewrite. -/
def blobDps (fields : List (String × J)) :
    Except PyErr (List (String × J) × J) :=
  match jLookup fields "datapoints" with
  | some dps => Except.ok (fields, dps)
  | none =>
    match transform1 fields with
    | Except.error e => Except.error e
    | Except.ok fields2 =>
      match jLookup fields2 "datapoints" with
      | some dps => Except.ok (fields2, dps)
      | none => Except.error PyErr.keyError

def blobObs (meta : Nat) (blob : J) : Except PyErr (List RawObs) :=
  match blob with
  | J.obj fields =>
    if (jLookup fields "uptime").isSome then Except.ok []
    else
      match blobDps fields with
      | Except.error e => Except.error e
      | Except.ok (fields2, J.arr ps) => ps.mapM (dpObs meta fields2)
      | Except.ok _ => Except.error PyErr.typeError
  | _ => Except.error PyErr.typeError

/-- One directory entry: its filename and the outcome of
`open` + `json.load` (`Except.error` models `IOError` or
`json.decoder.JSONDecodeError`). -/
structure FileEntry where
  name : String
  parsed : Except Unit J

/-- `Observations.generate_dir` over the `.json` data files of one
endpoint directory (after the metadata overlay), in scan order.  A file
whose open/parse fails enters the bare `except:` handler, which calls
`logger.exception()` with no message argument — that call itself raises
`TypeError`, so the walk aborts instead of reaching `continue`.  A file
whose JSON is not a list is iterated per Python semantics; for the blob
shapes the claims exercise that is an abort, modelled as `TypeError`. -/
def generate_dir (meta : Nat) : List FileEntry → Except PyErr (List RawObs)
  | [] => Except.ok []
  | f :: rest =>
    if !(f.name.takeRight 5 == ".json") then generate_dir meta rest
    else if f.name == "METADATA.json" then generate_dir meta rest
    else
      match f.parsed with
      | Except.error _ => Except.error PyErr.typeError
      | Except.ok (J.arr blobs) =>
        match blobs.mapM (blobObs meta) with
        | Except.error e => Except.error e
        | Except.ok xss =>
          match generate_dir meta rest with
          | Except.error e => Except.error e
          | Except.ok tail => Except.ok (xss.flatten ++ tail)
      | Except.ok _ => Except.error PyErr.typeError

/-! ### W1Datapoint_Linux_w1therm (w1datapoint_linux_w1therm.py)

A deterministic parser equivalent to `value_re` (the verbose-mode regex
over the w1_slave pseudofile content): nine two-hex-digit bytes each
followed by one whitespace character, `:`, `crc=` with a two-hex-digit
value, a `NO`/`YES` token, whitespace up to a newline, then optionally
the driver line — nine two-hex-digit bytes with optional whitespace,
`t=` and a decimal reading.  Greedy `\s*` runs before non-whitespace
tokens and the greedy `\s*\n` (which lands after the last newline of the
whitespace run) are resolved exactly as the backtracking engine does. -/

def isHexDigit (c : Char) : Bool :=
  c.isDigit || ('a' ≤ c && c ≤ 'f') || ('A' ≤ c && c ≤ 'F')

def isSpaceChar (c : Char) : Bool :=
  c == ' ' || c == '\t' || c == '\n' || c == '\r' || c == '\x0b' || c == '\x0c'

/-- `[0-9a-fA-F]{2}`. -/
def parseHexPair : List Char → Option (List Char)
  | a :: b :: rest => if isHexDigit a && isHexDigit b then some rest else none
  | _ => none

/-- `([0-9a-fA-F]{2} \s){n}`. -/
def parseRawBytes : Nat → List Char → Option (List Char)
  | 0, cs => some cs
  | n + 1, cs => do
    let cs ← parseHexPair cs
    match cs with
    | c :: rest => if isSpaceChar c then parseRawBytes n rest else none
    | [] => none

/-- Greedy `\s*` where the following token is not whitespace. -/
def skipSpace : List Char → List Char
  | c :: rest => if isSpaceChar c then skipSpace rest else c :: rest
  | [] => []

/-- A literal character sequence. -/
def parseLit : List Char → List Char → Option (List Char)
  | [], cs => some cs
  | l :: ls, c :: cs => if c == l then parseLit ls cs else none
  | _ :: _, [] => none

/-- `NO|YES` (first characters differ, so alternation is deterministic). -/
def parseCrcOk : List Char → Option (Bool × List Char)
  | 'N' :: 'O' :: rest => some (false, rest)
  | 'Y' :: 'E' :: 'S' :: rest => some (true, rest)
  | _ => none

/-- Position after the last newline of a character run, when it has one. -/
def afterLastNl : List Char → Option (List Char)
  | [] => none
  | c :: rest =>
    match afterLastNl rest with
    | some s => some s
    | none => if c == '\n' then some rest else none

/-- Greedy `\s* \n`: within the maximal whitespace run the engine settles
just after its last newline (any shorter split is restored by
backtracking only if a longer one fails, and the following group is
optional, so the greediest split wins). -/
def parseSpaceNl (cs : List Char) : Option (List Char) :=
  let run := cs.takeWhile isSpaceChar
  let rest := cs.drop run.length
  (afterLastNl run).map (· ++ rest)

/-- `([0-9a-fA-F]{2} \s*){n}`. -/
def parseRawBytesOptSpace : Nat → List Char → Option (List Char)
  | 0, cs => some cs
  | n + 1, cs => do
    let cs ← parseHexPair cs
    parseRawBytesOptSpace n (skipSpace cs)

/-- The optional `w1therm_driver_result` group: nine raw bytes, `t=` and
the decimal millidegree reading (`t = ` in a verbose-mode pattern is the
literal `t=`).  `none` when the group does not match (the match object
then has no `temp` group). -/
def parseTempGroup (cs : List Char) : Option Nat := do
  let cs ← parseRawBytesOptSpace 9 cs
  let cs ← parseLit ['t', '='] cs
  let ds := cs.takeWhile Char.isDigit
  if ds.isEmpty then none
  else some (ds.foldl (fun n c => n * 10 + (c.toNat - '0'.toNat)) 0)

/-- The groups of a successful `value_re.match`. -/
structure W1Match where
  crc_ok : Bool
  temp : Option Nat
  deriving DecidableEq

/-- `value_re.match(w1_string)`: `none` models a match failure. -/
def w1Match (w1_string : String) : Option W1Match := do
  let cs := w1_string.toList
  let cs ← parseRawBytes 9 cs
  let cs ← parseLit [':'] (skipSpace cs)
  let cs ← parseLit ['c', 'r', 'c', '='] (skipSpace cs)
  let cs ← parseHexPair cs
  let (ok, cs) ← parseCrcOk (skipSpace cs)
  let cs ← parseSpaceNl cs
  some { crc_ok := ok, temp := parseTempGroup cs }

/-- The decoded state `W1Datapoint_Linux_w1therm.__init__` produces:
`consistent` from the checksum token, `temp` (the `.value` property)
from the driver reading.  The Python float quotient is modelled as the
exact rational; the claims speak of the integer divided by 1000. -/
structure W1Therm where
  consistent : Bool
  temp : ℚ
  deriving DecidableEq

/-- Exceptions `__init__` raises. -/
inductive W1Err where
  | itAintMe
  | runtimeError
  deriving DecidableEq

/-- `W1Datapoint_Linux_w1therm.__init__(w1_string)`: match failure raises
`ItAintMe`; a match without the driver reading raises `RuntimeError`
("temp calc from raw sensor data is not yet implemented"); otherwise the
value is the reading divided by 1000. -/
def w1thermInit (w1_string : String) : Except W1Err W1Therm :=
  match w1Match w1_string with
  | none => Except.error W1Err.itAintMe
  | some mo =>
    match mo.temp with
    | some t => Except.ok { consistent := mo.crc_ok, temp := (t : ℚ) / 1000 }
    | none => Except.error W1Err.runtimeError

/-! ### Concrete run fixtures used by the closed theorems below -/

/-- An empty rollup directory. -/
def dmEmpty : DiskMap := fun _ => none

/-- A dirty rollup holding one row and one metadata entry, about to flush. -/
def c2rm : RollupMonthly :=
  { rollup_location := "out"
    year := 2020
    month := 2
    measurement_name := "temp"
    metadata_series := [(5, 0)]
    changed := true
    content := some [(DKey.rKey 5 1, DVal.dpVal ⟨16⟩)] }

/-- The document `c2rm.flush` writes, at the path it writes it to. -/
def c2doc : Doc := { meta := [(5, 0)], rows := [(5, 16)] }

def c2dm : DiskMap := updateMap dmEmpty c2rm.writePath c2doc

/-- Three `add_row` calls where the third lowers the onset of the second
call's metadata snapshot below the first entry's onset. -/
def c4State : RollupMonthly :=
  (((RollupMonthly.init "out" 2020 1 "temp").add_row 1 0 ⟨16⟩ 0 dmEmpty).add_row
      2 1 ⟨17⟩ 1 dmEmpty).add_row 0 2 ⟨18⟩ 1 dmEmpty

/-- A rollup tree holding two pre-existing partitions of one measurement,
2020-01 (older) and 2020-02 (most recent). -/
def c1Parts : List (Nat × Nat × String) := [(2020, 1, "temp"), (2020, 2, "temp")]

def c1RMC : RMC := RMC.init "out" c1Parts

/-- An observation routed to the older pre-existing partition 2020-01. -/
def c1Obs : PyObservation :=
  { year := 2020
    month := 1
    time := 100
    uuid := 7
    datapoint := ⟨16⟩
    metadata := 0
    measurement := "temp" }

/-- The on-disk documents of the two scanned partitions, at the paths
`rewrite` puts them. -/
def c1Disk : DiskMap :=
  updateMap (updateMap dmEmpty "out/temp/2020-01-temp.json"
    { meta := [(50, 0)], rows := [(50, 15)] }) "out/temp/2020-02-temp.json"
    { meta := [(80, 0)], rows := [(80, 17)] }

/-- A well-formed recording blob (the shape documented in
`process_w1logger_json`): one datapoint with its own isotime, key, raw
value and recording event. -/
def c6Good : J :=
  J.arr [J.obj [
    ("scan_start", J.s "2020-02-05T05:35:02.232+00:00"),
    ("datapoints", J.arr [J.obj [
      ("isotime", J.s "2020-02-05T05:35:02.233+00:00"),
      ("key", J.s "28-011912588b87/w1_slave"),
      ("value", J.s "raw"),
      ("recording_event", J.s "dd2942ea")]]),
    ("scan_end", J.s "2020-02-05T05:35:03.152+00:00")]]

/-! ### Helper lemmas -/

theorem read_lazy_metadata (rm : RollupMonthly) (dm : DiskMap) :
    (rm.read_lazy dm).metadata_series = rm.metadata_series := by
  unfold RollupMonthly.read_lazy
  rcases rm.content with _ | c
  · rcases dm rm.readPath with _ | doc <;> rfl
  · rfl

theorem read_lazy_changed (rm : RollupMonthly) (dm : DiskMap) :
    (rm.read_lazy dm).changed = rm.changed := by
  unfold RollupMonthly.read_lazy
  rcases rm.content with _ | c
  · rcases dm rm.readPath with _ | doc <;> rfl
  · rfl

theorem add_row_metadata (rm : RollupMonthly) (t u : Nat) (v : Datapoint)
    (m : Nat) (dm : DiskMap) :
    (rm.add_row t u v m dm).metadata_series =
      save_metadata rm.metadata_series t m := by
  show (let rm' := rm.read_lazy dm;
    { rm' with
      changed := true
      metadata_series := save_metadata rm'.metadata_series t m
      content := some (dictSet (rm'.content.getD []) (DKey.rKey t u)
        (DVal.dpVal v)) }).metadata_series = save_metadata rm.metadata_series t m
  simp only [read_lazy_metadata]

theorem smUpdate_eq_none {m : Nat} :
    ∀ {l : List (Nat × Nat)}, occs m l = [] → ∀ dt, smUpdate l dt m = none := by
  intro l
  induction l with
  | nil => intro _ _; rfl
  | cons e rest ih =>
    intro h dt
    rcases e with ⟨e1, m'⟩
    by_cases hm : m' = m
    · exfalso
      simp [occs, List.filter_cons, hm] at h
    · simp only [occs, List.filter_cons] at h
      rw [if_neg (by simpa using hm)] at h
      simp [smUpdate, hm, ih h dt]

theorem occs_save_metadata_absent {m : Nat} {l : List (Nat × Nat)}
    (h : occs m l = []) (dt : Nat) :
    occs m (save_metadata l dt m) = [(dt, m)] := by
  unfold save_metadata
  rw [smUpdate_eq_none h dt]
  have hperm : List.Perm (occs m (List.insertionSort metaLe (l ++ [(dt, m)])))
      (occs m (l ++ [(dt, m)])) :=
    (List.perm_insertionSort metaLe (l ++ [(dt, m)])).filter _
  have hocc : occs m (l ++ [(dt, m)]) = [(dt, m)] := by
    unfold occs at h ⊢
    rw [List.filter_append, h]
    simp
  rw [hocc] at hperm
  exact List.perm_singleton.mp hperm

theorem smUpdate_single {m e0 : Nat} :
    ∀ {l : List (Nat × Nat)}, occs m l = [(e0, m)] → ∀ dt,
      ∃ l', smUpdate l dt m = some l' ∧
        occs m l' = [(if dt < e0 then dt else e0, m)] := by
  intro l
  induction l with
  | nil => intro h; simp [occs] at h
  | cons e rest ih =>
    intro h dt
    rcases e with ⟨e1, m'⟩
    by_cases hm : m' = m
    · subst hm
      simp only [occs, List.filter_cons, decide_True, if_pos] at h
      rw [List.cons_eq_cons] at h
      obtain ⟨h1, h2⟩ := h
      have he : e1 = e0 := (Prod.mk.injEq _ _ _ _).mp h1 |>.1
      subst he
      refine ⟨if dt < e1 then (dt, m') :: rest else (e1, m') :: rest, ?_, ?_⟩
      · simp [smUpdate]
      · by_cases hdt : dt < e1
        · simp only [if_pos hdt]
          simp [occs, List.filter_cons, h2]
        · simp only [if_neg hdt]
          simp [occs, List.filter_cons, h2]
    · simp only [occs, List.filter_cons] at h
      rw [if_neg (by simpa using hm)] at h
      obtain ⟨l', hl', hocc⟩ := ih h dt
      refine ⟨(e1, m') :: l', ?_, ?_⟩
      · simp [smUpdate, hm, hl']
      · simp only [occs, List.filter_cons] at hocc ⊢
        rw [if_neg (by simpa using hm)]
        exact hocc

theorem occs_save_metadata_present {m e0 : Nat} {l : List (Nat × Nat)}
    (h : occs m l = [(e0, m)]) (dt : Nat) :
    occs m (save_metadata l dt m) = [(if dt < e0 then dt else e0, m)] := by
  obtain ⟨l', hl', hocc⟩ := smUpdate_single h dt
  unfold save_metadata
  rw [hl']
  exact hocc

theorem dictSet_keys_mem {K V : Type} [BEq K] [LawfulBEq K]
    (c : List (K × V)) (k : K) (v : V) :
    ∀ a, a ∈ (dictSet c k v).map (·.1) → a = k ∨ a ∈ c.map (·.1) := by
  induction c with
  | nil => simp [dictSet]
  | cons kv rest ih =>
    rcases kv with ⟨k', v'⟩
    intro a ha
    by_cases hk : k' = k
    · subst hk
      rw [dictSet, if_pos (by simp)] at ha
      simp only [List.map_cons, List.mem_cons] at ha ⊢
      tauto
    · rw [dictSet, if_neg (by simpa using hk)] at ha
      simp only [List.map_cons, List.mem_cons] at ha ⊢
      rcases ha with ha | ha
      · tauto
      · rcases ih a ha with h | h <;> tauto

theorem dictSet_keys_nodup {K V : Type} [BEq K] [LawfulBEq K]
    {c : List (K × V)} (h : (c.map (·.1)).Nodup) (k : K) (v : V) :
    ((dictSet c k v).map (·.1)).Nodup := by
  induction c with
  | nil => simp [dictSet]
  | cons kv rest ih =>
    rcases kv with ⟨k', v'⟩
    simp only [List.map_cons, List.nodup_cons] at h
    by_cases hk : k' = k
    · subst hk
      rw [dictSet, if_pos (by simp)]
      simp only [List.map_cons, List.nodup_cons]
      exact h
    · rw [dictSet, if_neg (by simpa using hk)]
      simp only [List.map_cons, List.nodup_cons]
      refine ⟨?_, ih h.2⟩
      intro hmem
      rcases dictSet_keys_mem rest k v k' hmem with hh | hh
      · exact hk hh
      · exact h.1 hh

theorem dictSet_filter_self {K V : Type} [BEq K] [LawfulBEq K]
    {c : List (K × V)} (h : (c.map (·.1)).Nodup) (k : K) (v : V) :
    (dictSet c k v).filter (fun kv => kv.1 == k) = [(k, v)] := by
  induction c with
  | nil => simp [dictSet]
  | cons kv rest ih =>
    rcases kv with ⟨k', v'⟩
    simp only [List.map_cons, List.nodup_cons] at h
    by_cases hk : k' = k
    · subst hk
      rw [dictSet, if_pos (by simp)]
      rw [List.filter_cons, if_pos (by simp)]
      have : rest.filter (fun kv => kv.1 == k') = [] := by
        apply List.filter_eq_nil_iff.mpr
        intro a ha
        simp only [beq_iff_eq]
        intro hae
        exact h.1 (hae ▸ (List.mem_map.mpr ⟨a, ha, rfl⟩))
      rw [this]
    · rw [dictSet, if_neg (by simpa using hk)]
      rw [List.filter_cons, if_neg (by simpa using hk)]
      exact ih h.2

theorem dictSet_mem_keys {K V : Type} [BEq K] [LawfulBEq K]
    (c : List (K × V)) (k : K) (v : V) :
    k ∈ (dictSet c k v).map (·.1) := by
  induction c with
  | nil => simp [dictSet]
  | cons kv rest ih =>
    rcases kv with ⟨k', v'⟩
    by_cases hk : k' = k
    · subst hk; rw [dictSet, if_pos (by simp)]; simp
    · rw [dictSet, if_neg (by simpa using hk)]
      simpa using Or.inr ih

theorem dictSet_length_of_mem {K V : Type} [BEq K] [LawfulBEq K]
    {c : List (K × V)} {k : K} (h : k ∈ c.map (·.1)) (v : V) :
    (dictSet c k v).length = c.length := by
  induction c with
  | nil => simp at h
  | cons kv rest ih =>
    rcases kv with ⟨k', v'⟩
    by_cases hk : k' = k
    · subst hk; rw [dictSet, if_pos (by simp)]; rfl
    · rw [dictSet, if_neg (by simpa using hk)]
      simp only [List.map_cons, List.mem_cons] at h
      rcases h with h | h
      · exact absurd h.symm hk
      · simp [ih h]

theorem read_lazy_content_nodup (rm : RollupMonthly) (dm : DiskMap)
    (hwf : rm.WF) :
    ∀ c, (rm.read_lazy dm).content = some c → (c.map (·.1)).Nodup := by
  intro c hc
  unfold RollupMonthly.read_lazy at hc
  rcases hrm : rm.content with _ | c0
  · rw [hrm] at hc
    rcases hdm : dm rm.readPath with _ | doc <;> rw [hdm] at hc <;>
      simp only [Option.some.injEq] at hc <;> subst hc <;>
      simp only [List.map_cons, List.map_nil] <;> decide
  · rw [hrm] at hc
    simp only [] at hc
    rw [hrm] at hc
    injection hc with h
    subst h
    exact hwf c0 hrm

theorem read_lazy_getD_nodup (rm : RollupMonthly) (dm : DiskMap)
    (hwf : rm.WF) :
    (((rm.read_lazy dm).content.getD []).map (·.1)).Nodup := by
  rcases h : (rm.read_lazy dm).content with _ | c
  · simp
  · simpa using read_lazy_content_nodup rm dm hwf c h

/-! ### The claims -/

/-- C2: a `RollupFile` that has just been flushed to disk, reloaded from
its on-disk content and flushed again with no intervening `add_row`,
leaves the stored document — hence its row and metadata sections —
byte-identical to the first flush: the reloaded instance is not dirty,
so the second flush writes nothing.  (The reload follows the source and
reads `rollup_location/filename`, the path without the measurement
directory.) -/
theorem flushed_reload_reflush_identity (rm : RollupMonthly)
    (dm dm' : DiskMap) (hch : rm.changed = true)
    (hfl : rm.flush dm = Except.ok dm') :
    ((RollupMonthly.init rm.rollup_location rm.year rm.month
        rm.measurement_name).read_lazy dm').flush dm' = Except.ok dm' := by
  have hf : (((RollupMonthly.init rm.rollup_location rm.year rm.month
      rm.measurement_name)).read_lazy dm').changed = false := by
    rw [read_lazy_changed]; rfl
  unfold RollupMonthly.flush
  rw [hf]
  rfl

/-- C2 witness: a concrete dirty rollup whose flush writes `c2doc`;
reloading from the flushed directory and re-flushing returns the
directory unchanged. -/
theorem flushed_reload_reflush_identity_witness :
    ((RollupMonthly.init c2rm.rollup_location c2rm.year c2rm.month
        c2rm.measurement_name).read_lazy c2dm).flush c2dm = Except.ok c2dm :=
  flushed_reload_reflush_identity c2rm dmEmpty c2dm rfl rfl

/-- C3: two `add_row` calls sharing the `(timestamp, event id)` key leave
exactly one row at that key, holding the second value; the second call
does not grow the row dict (no duplicate row is appended). -/
theorem add_row_last_write_wins (rm : RollupMonthly) (dm : DiskMap)
    (t u : Nat) (v1 v2 : Datapoint) (m1 m2 : Nat) (hwf : rm.WF) :
    rowsAt (((rm.add_row t u v1 m1 dm).add_row t u v2 m2 dm).content.getD [])
        (DKey.rKey t u) = [(DKey.rKey t u, DVal.dpVal v2)] ∧
    (((rm.add_row t u v1 m1 dm).add_row t u v2 m2 dm).content.getD []).length =
      ((rm.add_row t u v1 m1 dm).content.getD []).length := by
  have hc0 : ((((rm.read_lazy dm).content.getD [])).map (·.1)).Nodup :=
    read_lazy_getD_nodup rm dm hwf
  have h1 : ((rm.add_row t u v1 m1 dm).content.getD []) =
      dictSet ((rm.read_lazy dm).content.getD []) (DKey.rKey t u)
        (DVal.dpVal v1) := rfl
  have h2 : (((rm.add_row t u v1 m1 dm).add_row t u v2 m2 dm).content.getD []) =
      dictSet (dictSet ((rm.read_lazy dm).content.getD []) (DKey.rKey t u)
        (DVal.dpVal v1)) (DKey.rKey t u) (DVal.dpVal v2) := rfl
  have hc1 : ((dictSet ((rm.read_lazy dm).content.getD []) (DKey.rKey t u)
      (DVal.dpVal v1)).map (·.1)).Nodup :=
    dictSet_keys_nodup hc0 _ _
  constructor
  · rw [h2]
    exact dictSet_filter_self hc1 _ _
  · rw [h1, h2]
    exact dictSet_length_of_mem (dictSet_mem_keys _ _ _) _

/-- C3 witness: on a fresh partition, re-adding the key `(3, 9)` keeps a
single row holding the second value. -/
theorem add_row_last_write_wins_witness :
    rowsAt ((((RollupMonthly.init "out" 2020 1 "temp").add_row 3 9 ⟨16⟩ 0
        dmEmpty).add_row 3 9 ⟨17⟩ 1 dmEmpty).content.getD [])
        (DKey.rKey 3 9) = [(DKey.rKey 3 9, DVal.dpVal ⟨17⟩)] ∧
    ((((RollupMonthly.init "out" 2020 1 "temp").add_row 3 9 ⟨16⟩ 0
        dmEmpty).add_row 3 9 ⟨17⟩ 1 dmEmpty).content.getD []).length =
      (((RollupMonthly.init "out" 2020 1 "temp").add_row 3 9 ⟨16⟩ 0
        dmEmpty).content.getD []).length :=
  add_row_last_write_wins (RollupMonthly.init "out" 2020 1 "temp") dmEmpty
    3 9 ⟨16⟩ ⟨17⟩ 0 1 (fun c h => by cases h)

/-- C4 counterexample: after `add_row` at onset 1 (snapshot 0), onset 2
(snapshot 1) and onset 0 (snapshot 1 again), `save_metadata` lowers the
second entry's onset in place without re-sorting, leaving
`metadata_series = [(1, 0), (0, 1)]` — not ascending by onset.  The
claim that every operation, including the onset-lowering case, preserves
the ordering is false. -/
theorem metadata_series_unsorted_after_onset_lowering :
    ¬ SortedOnset c4State.metadata_series := by decide

/-- C4 (amended): an `add_row`/`save_metadata` call whose metadata
snapshot is not already present leaves `metadata_series` sorted
ascending by onset (that path appends and re-sorts the whole list); and
the metadata section `rewrite` serializes is always re-sorted ascending.
Only the in-place onset-lowering path can leave the in-memory list
unsorted. -/
theorem add_row_new_snapshot_sorted (rm : RollupMonthly) (dm : DiskMap)
    (t u : Nat) (v : Datapoint) (m : Nat)
    (h : occs m rm.metadata_series = []) :
    SortedOnset ((rm.add_row t u v m dm).metadata_series) ∧
    ∀ series : List (Nat × Nat),
      SortedOnset (List.insertionSort metaLe series) := by
  constructor
  · rw [add_row_metadata]
    unfold save_metadata
    rw [smUpdate_eq_none h t]
    exact sorted_metaLe_onset (List.sorted_insertionSort metaLe _)
  · intro series
    exact sorted_metaLe_onset (List.sorted_insertionSort metaLe _)

/-- C4 witness: adding snapshot 0 to a fresh rollup leaves the series
sorted. -/
theorem add_row_new_snapshot_sorted_witness :
    SortedOnset (((RollupMonthly.init "out" 2020 1 "temp").add_row 1 0 ⟨16⟩ 0
        dmEmpty).metadata_series) ∧
    ∀ series : List (Nat × Nat),
      SortedOnset (List.insertionSort metaLe series) :=
  add_row_new_snapshot_sorted (RollupMonthly.init "out" 2020 1 "temp")
    dmEmpty 1 0 ⟨16⟩ 0 rfl

/-- C5: adding one metadata snapshot at onsets `t1 < t2`, in either call
order, to a rollup not yet holding that snapshot leaves exactly one
`metadata_series` entry for it, at onset `t1`. -/
theorem metadata_snapshot_min_onset (rm : RollupMonthly) (dm : DiskMap)
    (t1 t2 u1 u2 : Nat) (v1 v2 : Datapoint) (m : Nat) (hlt : t1 < t2)
    (habs : occs m rm.metadata_series = []) :
    occs m (((rm.add_row t1 u1 v1 m dm).add_row t2 u2 v2 m dm).metadata_series) =
      [(t1, m)] ∧
    occs m (((rm.add_row t2 u2 v2 m dm).add_row t1 u1 v1 m dm).metadata_series) =
      [(t1, m)] := by
  constructor
  · rw [add_row_metadata, add_row_metadata]
    rw [occs_save_metadata_present (occs_save_metadata_absent habs t1) t2]
    rw [if_neg (by omega)]
  · rw [add_row_metadata, add_row_metadata]
    rw [occs_save_metadata_present (occs_save_metadata_absent habs t2) t1]
    rw [if_pos hlt]

/-- C5 witness: onsets 3 < 5 for snapshot 7, in both orders, collapse to
one entry at onset 3. -/
theorem metadata_snapshot_min_onset_witness :
    occs 7 ((((RollupMonthly.init "out" 2020 1 "temp").add_row 3 0 ⟨16⟩ 7
        dmEmpty).add_row 5 1 ⟨17⟩ 7 dmEmpty).metadata_series) = [(3, 7)] ∧
    occs 7 ((((RollupMonthly.init "out" 2020 1 "temp").add_row 5 1 ⟨17⟩ 7
        dmEmpty).add_row 3 0 ⟨16⟩ 7 dmEmpty).metadata_series) = [(3, 7)] :=
  metadata_snapshot_min_onset (RollupMonthly.init "out" 2020 1 "temp")
    dmEmpty 3 5 0 1 ⟨16⟩ ⟨17⟩ 7 (by decide) rfl

/-- C1: the skip heuristic never fires.  `c1RMC` is built over the
partition set containing 2020-01-temp and 2020-02-temp; its
most-recent-at-init key has the `(utctimetuple, measurement)` shape,
while `save_quick` routes by the `(year, month, measurement)` triple —
tuples of different lengths, never equal under Python `==` — so an
observation for the older, pre-existing partition 2020-01 is merged (a
rollup keyed by the triple appears in the collection, dirty, holding the
observation's row) instead of being skipped with the partition's rows
untouched. -/
theorem save_quick_merges_old_preexisting_partition :
    c1RMC.collection.length = 2 ∧
    c1RMC.most_recent_ymm_init = some (initKey 2020 2 "temp") ∧
    (c1RMC.save_quick c1Obs c1Disk).collection.length = 3 ∧
    dictGet (c1RMC.save_quick c1Obs c1Disk).collection (ymmKey 2020 1 "temp") =
      some { rollup_location := "out"
             year := 2020
             month := 1
             measurement_name := "temp"
             metadata_series := [(100, 0)]
             changed := true
             content := some [(DKey.rKey 100 7, DVal.dpVal ⟨16⟩)] } :=
  ⟨rfl, rfl, rfl, rfl⟩

/-- C6: a malformed data file does not get skipped.  The bare `except:`
handler around the per-file `open`/`json.load` calls `logger.exception()`
with no message argument, which itself raises `TypeError`, so the walk
aborts before `continue`: with a bad file ahead of a good one the walk
yields no observations at all, while the good file alone yields its
observation. -/
theorem generate_dir_aborts_on_malformed_file :
    generate_dir 0 [{ name := "bad.json", parsed := Except.error () },
        { name := "good.json", parsed := Except.ok c6Good }] =
      Except.error PyErr.typeError ∧
    generate_dir 0 [{ name := "good.json", parsed := Except.ok c6Good }] =
      Except.ok [{ isotime := J.s "2020-02-05T05:35:02.233+00:00"
                   key := J.s "28-011912588b87/w1_slave"
                   value := J.s "raw"
                   uuid := J.s "dd2942ea"
                   metadata := 0 }] :=
  ⟨rfl, rfl⟩

/-- C7: the timestamp chosen for a datapoint is its own `isotime` when
present; otherwise the blob's `scan_end`, else `recording_isotime`, else
`scan_start`, in exactly that order; with none of the three fallback
fields present the walk raises (`RuntimeError`), which nothing below
`do_rollup` catches. -/
theorem observation_timestamp_fallback_chain (blob p : List (String × J)) :
    (∀ t, jLookup p "isotime" = some t → dpTime blob p = Except.ok t) ∧
    (jLookup p "isotime" = none → ∀ t, jLookup blob "scan_end" = some t →
      dpTime blob p = Except.ok t) ∧
    (jLookup p "isotime" = none → jLookup blob "scan_end" = none →
      ∀ t, jLookup blob "recording_isotime" = some t →
        dpTime blob p = Except.ok t) ∧
    (jLookup p "isotime" = none → jLookup blob "scan_end" = none →
      jLookup blob "recording_isotime" = none →
      ∀ t, jLookup blob "scan_start" = some t → dpTime blob p = Except.ok t) ∧
    (jLookup p "isotime" = none → jLookup blob "scan_end" = none →
      jLookup blob "recording_isotime" = none →
      jLookup blob "scan_start" = none →
      dpTime blob p = Except.error PyErr.runtimeError) := by
  refine ⟨?_, ?_, ?_, ?_, ?_⟩ <;> intros <;>
    unfold dpTime get_fallback_time <;> simp_all

/-- C7 witness: a datapoint with no `isotime` in a blob with no
`scan_end` takes the blob's `recording_isotime`. -/
theorem observation_timestamp_fallback_chain_witness :
    dpTime [("recording_isotime", J.s "2020-02-05T05:35:03+00:00")]
        [("key", J.s "28-01/w1_slave")] =
      Except.ok (J.s "2020-02-05T05:35:03+00:00") :=
  (observation_timestamp_fallback_chain
    [("recording_isotime", J.s "2020-02-05T05:35:03+00:00")]
    [("key", J.s "28-01/w1_slave")]).2.2.1 rfl rfl
    (J.s "2020-02-05T05:35:03+00:00") rfl

/-- C9: a thermal-probe value string that matches the scratchpad/checksum
format decodes to the driver-computed reading divided by 1000 when that
reading is present, and raises (`RuntimeError`) instead of returning a
value when the `t=` line is absent. -/
theorem w1therm_driver_reading_required (s : String) (mo : W1Match)
    (h : w1Match s = some mo) :
    (mo.temp = none → w1thermInit s = Except.error W1Err.runtimeError) ∧
    (∀ t, mo.temp = some t →
      w1thermInit s =
        Except.ok { consistent := mo.crc_ok, temp := (t : ℚ) / 1000 }) := by
  have hm : w1thermInit s =
      (match mo.temp with
       | some t => Except.ok { consistent := mo.crc_ok, temp := (t : ℚ) / 1000 }
       | none => Except.error W1Err.runtimeError) := by
    unfold w1thermInit
    rw [h]
  constructor
  · intro ht; rw [hm, ht]
  · intro t ht; rw [hm, ht]

/-- C9 witness: the checksum-only string matches with no reading and
decoding fails; with the driver line, decoding yields 16187/1000. -/
theorem w1therm_driver_reading_required_witness :
    w1Match "03 01 4b 46 7f ff 0c 10 30 : crc=30 YES\n" =
      some { crc_ok := true, temp := none } ∧
    w1thermInit "03 01 4b 46 7f ff 0c 10 30 : crc=30 YES\n" =
      Except.error W1Err.runtimeError ∧
    w1thermInit
        "03 01 4b 46 7f ff 0c 10 30 : crc=30 YES\n03 01 4b 46 7f ff 0c 10 30 t=16187\n" =
      Except.ok { consistent := true, temp := (16187 : ℚ) / 1000 } :=
  ⟨rfl,
   (w1therm_driver_reading_required "03 01 4b 46 7f ff 0c 10 30 : crc=30 YES\n"
     { crc_ok := true, temp := none } rfl).1 rfl,
   (w1therm_driver_reading_required
     "03 01 4b 46 7f ff 0c 10 30 : crc=30 YES\n03 01 4b 46 7f ff 0c 10 30 t=16187\n"
     { crc_ok := true, temp := some 16187 } rfl).2 16187 rfl⟩

theorem find?_legacy_key (pre post : List (String × J)) (k : String) (vk : J)
    (hpre : ∀ kv ∈ pre, ¬(kv.1.take 3 = "28-")) (hk : k.take 3 = "28-") :
    (pre ++ (k, vk) :: post).find? (fun kv => kv.1.take 3 == "28-") =
      some (k, vk) := by
  induction pre with
  | nil =>
    simp only [List.nil_append]
    rw [List.find?_cons_of_pos _ (by simpa using hk)]
  | cons a pre' ih =>
    simp only [List.cons_append]
    rw [List.find?_cons_of_neg _ (by simpa using hpre a (by simp))]
    exact ih (fun kv hkv => hpre kv (by simp [hkv]))

theorem dictSet_append_of_not_mem {K V : Type} [BEq K] [LawfulBEq K]
    {l : List (K × V)} {k : K} (h : k ∉ l.map (·.1)) (v : V) :
    dictSet l k v = l ++ [(k, v)] := by
  induction l with
  | nil => rfl
  | cons kv rest ih =>
    rcases kv with ⟨k', v'⟩
    simp only [List.map_cons, List.mem_cons] at h
    rw [dictSet, if_neg (by simp; exact fun hh => h (Or.inl hh.symm))]
    simp only [List.cons_append, List.cons.injEq, true_and]
    exact ih (fun hh => h (Or.inr hh))

theorem jDel_append (pre rest : List (String × J)) (k : String) (vk : J)
    (h : ∀ kv ∈ pre, kv.1 ≠ k) :
    jDel (pre ++ (k, vk) :: rest) k = pre ++ rest := by
  induction pre with
  | nil =>
    simp only [List.nil_append]
    rw [jDel, if_pos (by simp)]
  | cons a pre' ih =>
    simp only [List.cons_append]
    rw [jDel, if_neg (by simpa using h a (by simp))]
    simp only [List.cons.injEq, true_and]
    exact ih (fun kv hkv => h kv (by simp [hkv]))

/-- C8: a legacy record whose only sensor field is one top-level key
starting with "28-", holding an object with `isotime` and `value`
fields, is rewritten into a one-element canonical `datapoints` list
(appended after the remaining fields, since no `datapoints` key exists
yet), with the legacy key removed and every other top-level field
unchanged. -/
theorem transform1_normalizes_legacy_record
    (pre post : List (String × J)) (k : String) (vk T V : J)
    (hpre : ∀ kv ∈ pre, ¬(kv.1.take 3 = "28-"))
    (hk : k.take 3 = "28-")
    (hpost : ∀ kv ∈ post, ¬(kv.1.take 3 = "28-"))
    (hiso : jIndex vk "isotime" = Except.ok T)
    (hval : jIndex vk "value" = Except.ok V)
    (hnodp : "datapoints" ∉ (pre ++ (k, vk) :: post).map (·.1)) :
    transform1 (pre ++ (k, vk) :: post) =
      Except.ok (pre ++ post ++
        [("datapoints",
          J.arr [J.obj [("isotime", T), ("key", J.s k), ("value", V)]])]) := by
  unfold transform1
  rw [find?_legacy_key pre post k vk hpre hk]
  show (do
      let iso ← jIndex vk "isotime"
      let v ← jIndex vk "value"
      Except.ok (jDel
        (dictSet (pre ++ (k, vk) :: post) "datapoints"
          (J.arr [J.obj [("isotime", iso), ("key", J.s k), ("value", v)]]))
        k)) = _
  rw [hiso, hval]
  show Except.ok (jDel
      (dictSet (pre ++ (k, vk) :: post) "datapoints"
        (J.arr [J.obj [("isotime", T), ("key", J.s k), ("value", V)]])) k) = _
  rw [dictSet_append_of_not_mem hnodp]
  have hassoc : (pre ++ (k, vk) :: post) ++
      [("datapoints",
        J.arr [J.obj [("isotime", T), ("key", J.s k), ("value", V)]])] =
      pre ++ (k, vk) :: (post ++
        [("datapoints",
          J.arr [J.obj [("isotime", T), ("key", J.s k), ("value", V)]])]) := by
    simp
  rw [hassoc]
  rw [jDel_append pre _ k vk
    (fun kv hkv hke => hpre kv hkv (hke ▸ hk))]
  simp

/-- C8 witness: the spec's example shape, with one extra sibling field. -/
theorem transform1_normalizes_legacy_record_witness :
    transform1 [("28-aabbcc", J.obj [("isotime", J.s "T"), ("value", J.s "V")]),
        ("recording_isotime", J.s "R")] =
      Except.ok [("recording_isotime", J.s "R"),
        ("datapoints",
          J.arr [J.obj [("isotime", J.s "T"), ("key", J.s "28-aabbcc"),
            ("value", J.s "V")]])] :=
  transform1_normalizes_legacy_record []
    [("recording_isotime", J.s "R")] "28-aabbcc"
    (J.obj [("isotime", J.s "T"), ("value", J.s "V")]) (J.s "T") (J.s "V")
    (by intro kv h; cases h) rfl
    (by intro kv h; simp at h; subst h; decide) rfl rfl (by decide)

theorem transform1_no_legacy_key {fields : List (String × J)}
    (h : ∀ kv ∈ fields, ¬(kv.1.take 3 = "28-")) :
    transform1 fields = Except.ok fields := by
  unfold transform1
  rw [List.find?_eq_none.mpr (fun kv hkv => by simpa using h kv hkv)]

/-- C10: a successfully parsed blob with no `uptime` marker, no
`datapoints` field and no top-level "28-" key makes the repeated
`blob['datapoints']` lookup after `transform1` raise `KeyError`, which
no handler catches: the blob is neither skipped as a malformed file nor
ignored as a health record, and the walk over its file aborts. -/
theorem walk_aborts_on_shapeless_blob (fields : List (String × J))
    (meta : Nat) (name : String)
    (hn1 : (name.takeRight 5 == ".json") = true)
    (hn2 : (name == "METADATA.json") = false)
    (hup : jLookup fields "uptime" = none)
    (hdp : jLookup fields "datapoints" = none)
    (h28 : ∀ kv ∈ fields, ¬(kv.1.take 3 = "28-")) :
    blobObs meta (J.obj fields) = Except.error PyErr.keyError ∧
    generate_dir meta
        [{ name := name, parsed := Except.ok (J.arr [J.obj fields]) }] =
      Except.error PyErr.keyError := by
  have hbd : blobDps fields = Except.error PyErr.keyError := by
    unfold blobDps
    rw [hdp, transform1_no_legacy_key h28]
    show (match jLookup fields "datapoints" with
      | some dps => Except.ok (fields, dps)
      | none => Except.error PyErr.keyError) = Except.error PyErr.keyError
    rw [hdp]
  have hblob : blobObs meta (J.obj fields) = Except.error PyErr.keyError := by
    show (if (jLookup fields "uptime").isSome then Except.ok []
      else
        match blobDps fields with
        | Except.error e => Except.error e
        | Except.ok (fields2, J.arr ps) => ps.mapM (dpObs meta fields2)
        | Except.ok _ => Except.error PyErr.typeError) =
      Except.error PyErr.keyError
    rw [hup, hbd]
    rfl
  refine ⟨hblob, ?_⟩
  simp only [generate_dir, hn1, hn2, Bool.not_true, Bool.false_eq_true,
    if_false, List.mapM_cons, List.mapM_nil, hblob]
  rfl

/-- C10 witness: a parsed blob holding only an unrelated field aborts the
walk with `KeyError`. -/
theorem walk_aborts_on_shapeless_blob_witness :
    blobObs 0 (J.obj [("foo", J.n 1)]) = Except.error PyErr.keyError ∧
    generate_dir 0
        [{ name := "data.json",
           parsed := Except.ok (J.arr [J.obj [("foo", J.n 1)]]) }] =
      Except.error PyErr.keyError :=
  walk_aborts_on_shapeless_blob [("foo", J.n 1)] 0 "data.json" rfl rfl rfl rfl
    (by decide)
